import Mathlib

/-!
Shallow embedding of `ml/deep_learning/layer.py` (layer descriptor model):
Python values are modelled by an inductive universe `PyVal`, numpy arrays by
their shape, and every fallible operation returns `Except PyError`.  The
constructors and methods below are translated line by line from the source;
comments cite the corresponding lines of `layer.py`.  The source is Python 2,
so mixed-type comparisons such as `tuple > int` follow CPython 2 ordering
(None below numbers, numbers below every other type).
-/

/-- A numpy array, modelled by its shape only; element values are never
inspected by the source code under verification. -/
structure NpArray where
  shape : List Nat

/-- Total number of elements of an array (product of its dimensions). -/
def NpArray.size (a : NpArray) : Nat := a.shape.prod

/-- The universe of Python values the layer module manipulates. -/
inductive PyVal where
  | none
  | int (n : Int)
  | str (s : String)
  | tuple (items : List PyVal)
  | array (a : NpArray)

/-- Python exceptions raised by the embedded code (plus `invalidState`, used
only by definitions modelled from the spec). -/
inductive PyError where
  | assertionError (msg : String)
  | typeError (msg : String)
  | valueError (msg : String)
  | indexError (msg : String)
  | attributeError (msg : String)
  | notImplementedError
  | invalidState (msg : String)

/-- Python `assert cond, msg`. -/
def pyAssert (b : Bool) (msg : String) : Except PyError Unit :=
  if b then pure () else throw (.assertionError msg)

/-- Modelled from the spec: `type_check.isstring` (imported at layer.py line 6)
is not part of the sources given; spec section 6 describes it as the check
"is this value a string". -/
def isstring : PyVal → Bool
  | .str _ => true
  | _ => false

/-- Python `type(v) is int`. -/
def isInt : PyVal → Bool
  | .int _ => true
  | _ => false

/-- Python `v is None`. -/
def isNone : PyVal → Bool
  | .none => true
  | _ => false

/-- Python `type(v) is int and v > 0` (layer.py lines 120-121). -/
def isIntPos : PyVal → Bool
  | .int n => decide (0 < n)
  | _ => false

/-- Python `v is None or isinstance(v, np.ndarray)` (layer.py line 125). -/
def isNoneOrArray : PyVal → Bool
  | .none => true
  | .array _ => true
  | _ => false

/-- Python `isinstance(v, np.ndarray)`. -/
def isArray : PyVal → Bool
  | .array _ => true
  | _ => false

/-- Python `v == s` for a string literal `s`: only a str compares equal. -/
def strEq : PyVal → String → Bool
  | .str t, s => t == s
  | _, _ => false

/-- Python `len(v)`; raises TypeError on unsized values.  For an array,
`len` is the first dimension. -/
def pyLen : PyVal → Except PyError Nat
  | .tuple xs => pure xs.length
  | .str s => pure s.length
  | .array a =>
    match a.shape with
    | [] => throw (.typeError "len of unsized object")
    | d :: _ => pure d
  | _ => throw (.typeError "object has no len")

/-- Python iteration `for item in v`.  Array elements are numpy scalars or
subarrays whose values this model does not track; every source path that
iterates an array inside the shape checks below fails in Python as well
(the elements are never Python ints and elementwise comparisons have no
truth value), so modelling that iteration as a fault leaves the set of
accepted inputs unchanged. -/
def pyIter : PyVal → Except PyError (List PyVal)
  | .tuple xs => pure xs
  | .str s => pure (s.toList.map fun c => .str (String.mk [c]))
  | .array _ => throw (.typeError "array elements are not modelled")
  | _ => throw (.typeError "object is not iterable")

/-- Python 2 `v > 0`.  CPython 2 orders mixed types with None below all
numbers and numbers below every other built-in type, so a str or tuple
always compares greater than 0.  The truth value of an array comparison is
ambiguous (ValueError). -/
def py2GtZero : PyVal → Except PyError Bool
  | .none => pure false
  | .int n => pure (decide (0 < n))
  | .str _ => pure true
  | .tuple _ => pure true
  | .array _ => throw (.valueError "truth value of an array comparison is ambiguous")

/-- Python 2 `v >= 0`, with the same mixed-type ordering as `py2GtZero`. -/
def py2GeZero : PyVal → Except PyError Bool
  | .none => pure false
  | .int n => pure (decide (0 ≤ n))
  | .str _ => pure true
  | .tuple _ => pure true
  | .array _ => throw (.valueError "truth value of an array comparison is ambiguous")

/-- Python `all(f item for item in xs)` with short-circuiting. -/
def pyAll (f : PyVal → Except PyError Bool) : List PyVal → Except PyError Bool
  | [] => pure true
  | x :: xs => do
    if (← f x) then pyAll f xs else pure false

/-- Layer.py lines 122-124: `v is None or type(v) is int or len(v) == 2`,
with Python left-to-right short-circuiting (so `len` only runs when the
first two tests fail and may raise TypeError). -/
def shapeArgOk : PyVal → Except PyError Bool
  | .none => pure true
  | .int _ => pure true
  | v => do pure ((← pyLen v) == 2)

/-- Layer.py line 128: `all(item > 0 and type(item) is int for item in kernal_size)`. -/
def checkKernelItems (kernal_size : PyVal) : Except PyError Bool := do
  let items ← pyIter kernal_size
  pyAll (fun item => do pure ((← py2GtZero item) && isInt item)) items

/-- Layer.py line 130: `all(stride > 0 and type(item) is int for item in stride)`.
The source compares the WHOLE `stride` value with 0, not the item; in Python 2
that comparison is always true for a tuple. -/
def checkStrideItems (stride : PyVal) : Except PyError Bool := do
  let items ← pyIter stride
  pyAll (fun item => do pure ((← py2GtZero stride) && isInt item)) items

/-- Layer.py line 132: `all(padding >= 0 and type(item) is int for item in padding)`.
As on line 130, the whole `padding` value is compared with 0, not the item. -/
def checkPaddingItems (padding : PyVal) : Except PyError Bool := do
  let items ← pyIter padding
  pyAll (fun item => do pure ((← py2GeZero padding) && isInt item)) items

/-- Layer.py lines 134 and 140: `any(v == item for item in ['uint', 'single', 'double'])`. -/
def isTypeTag (v : PyVal) : Bool :=
  strEq v "uint" || strEq v "single" || strEq v "double"

/-- Which concrete layer class a descriptor was built from. -/
inductive LayerKind where
  | input
  | layer
  | convolution
  | pooling

/-- The attribute record of a layer object.  `Input` never defines the shape
attributes; for it they are filled with `none` and never read. -/
structure Descriptor where
  kind : LayerKind
  name : PyVal
  data : PyVal
  params : PyVal
  datatype : PyVal
  paramtype : PyVal
  nInputPlane : PyVal
  nOutputPlane : PyVal
  kernal_size : PyVal
  stride : PyVal
  padding : PyVal

/-- Layer.py lines 146-151: a scalar int is duplicated into a pair; every
other value (including None) is stored unchanged. -/
def normalizeShape : PyVal → PyVal
  | .int k => .tuple [.int k, .int k]
  | v => v

/-- Layer.py lines 133-143: a missing datatype/paramtype defaults to the
string single (the print notice is a side effect outside this model). -/
def resolveTypeTag : PyVal → PyVal
  | .none => .str "single"
  | v => v

/-- All assertions run by `Layer.__init__` (layer.py lines 118-143), in source
order. -/
def Layer_checks (name nInputPlane nOutputPlane kernal_size stride padding
    datatype params paramtype : PyVal) : Except PyError Unit := do
  -- super(Layer, self).__init__(name), layer.py line 13
  pyAssert (isstring name) "the name of input layer should be a string"
  -- lines 120-121
  pyAssert (isIntPos nInputPlane) "number of input channel is not correct"
  pyAssert (isIntPos nOutputPlane) "number of output channel is not correct"
  -- lines 122-124
  pyAssert (← shapeArgOk kernal_size) "kernal size is not correct"
  pyAssert (← shapeArgOk stride) "stride size is not correct"
  pyAssert (← shapeArgOk padding) "padding size is not correct"
  -- line 125
  pyAssert (isNoneOrArray params) "parameter is not correct"
  -- lines 127-128
  if !(isInt kernal_size) && !(isNone kernal_size) then
    pyAssert (← checkKernelItems kernal_size) "kernal size must be positive integer"
  -- lines 129-130
  if !(isInt stride) && !(isNone stride) then
    pyAssert (← checkStrideItems stride) "stride must be positive integer"
  -- lines 131-132
  if !(isInt padding) && !(isNone padding) then
    pyAssert (← checkPaddingItems padding) "padding must be non-negative integer"
  -- lines 133-134
  if !(isNone datatype) then
    pyAssert (isTypeTag datatype) "type of data should be one of uint8 single double"
  -- lines 139-140
  if !(isNone paramtype) then
    pyAssert (isTypeTag paramtype) "type of parameter should be one of uint8 single double"

/-- The attribute assignments of `Layer.__init__` (layer.py lines 146-161). -/
def mkLayerState (name nInputPlane nOutputPlane kernal_size stride padding
    datatype params paramtype : PyVal) : Descriptor :=
  { kind := .layer
    name := name
    data := .none                          -- line 160
    params := params                       -- line 161
    datatype := resolveTypeTag datatype    -- lines 133-137, 158
    paramtype := resolveTypeTag paramtype  -- lines 139-143, 159
    nInputPlane := nInputPlane             -- line 156
    nOutputPlane := nOutputPlane           -- line 157
    kernal_size := normalizeShape kernal_size  -- lines 146-147, 153
    stride := normalizeShape stride        -- lines 148-149, 154
    padding := normalizeShape padding }    -- lines 150-151, 155

/-- `Layer.__init__` (layer.py lines 118-161). -/
def Layer_init (name nInputPlane nOutputPlane kernal_size stride padding
    datatype params paramtype : PyVal) : Except PyError Descriptor := do
  Layer_checks name nInputPlane nOutputPlane kernal_size stride padding
    datatype params paramtype
  pure (mkLayerState name nInputPlane nOutputPlane kernal_size stride padding
    datatype params paramtype)

/-- `Convolution.__init__` (layer.py lines 187-192).  After the super call,
lines 189-192 rebind the LOCAL variables `stride` and `padding`; the object
attributes are not touched, so no defaulting actually happens. -/
def Convolution_init (name nInputPlane nOutputPlane kernal_size stride padding
    datatype params paramtype : PyVal) : Except PyError Descriptor := do
  let d ← Layer_init name nInputPlane nOutputPlane kernal_size stride padding
    datatype params paramtype
  pure { d with kind := .convolution }

/-- `Pooling.__init__` (layer.py lines 224-229).  The super call on line 225
passes `paramtype` positionally into the slot `Layer.__init__` calls `params`,
and leaves `Layer.__init__`s own `paramtype` parameter at its default None.
Lines 226-229 rebind locals only, as in Convolution. -/
def Pooling_init (name nInputPlane nOutputPlane kernal_size stride padding
    datatype paramtype : PyVal) : Except PyError Descriptor := do
  let d ← Layer_init name nInputPlane nOutputPlane kernal_size stride padding
    datatype paramtype .none
  pure { d with kind := .pooling }

/-- `Input.__init__` (layer.py lines 87-93).  The shape attributes do not
exist on an Input object and are filled with none here; no Input code path
reads them. -/
def Input_init (name : PyVal) : Except PyError Descriptor := do
  pyAssert (isstring name) "the name of input layer should be a string"
  pure { kind := .input, name := name, data := .none, params := .none,
         datatype := .none, paramtype := .none, nInputPlane := .none,
         nOutputPlane := .none, kernal_size := .none, stride := .none,
         padding := .none }

/-- The `name` setter (layer.py lines 20-22): it validates the new value and
then returns without storing it, so the descriptor is unchanged. -/
def name_set (self : Descriptor) (name : PyVal) : Except PyError Descriptor := do
  pyAssert (isstring name) "the name of a layer should be a string"
  pure self

/-- Python subscription `v[i]` for the values this module subscripts. -/
def pySubscript (v : PyVal) (i : Nat) : Except PyError PyVal :=
  match v with
  | .tuple xs =>
    match xs.get? i with
    | some w => pure w
    | Option.none => throw (.indexError "tuple index out of range")
  | _ => throw (.typeError "object is not subscriptable")

/-- Python `a * b` restricted to ints.  The kernel entries and channel counts
reaching this operation are guaranteed ints by the constructor checks. -/
def pyMulInt (a b : PyVal) : Except PyError PyVal :=
  match a, b with
  | .int x, .int y => pure (.int (x * y))
  | _, _ => throw (.typeError "unsupported operand types for mul")

/-- Python `a + b` restricted to ints; adding None raises TypeError, which is
what happens on layer.py line 80 when `get_memory_usage_param` returned None. -/
def pyAddInt (a b : PyVal) : Except PyError PyVal :=
  match a, b with
  | .int x, .int y => pure (.int (x + y))
  | _, _ => throw (.typeError "unsupported operand types for add")

/-- Virtual dispatch of `get_num_param`: Input returns 0 (line 109), Pooling
returns 0 (line 250), Convolution computes the product (lines 212-213), and a
plain Layer inherits the abstract `raise NotImplementedError` (line 66). -/
def get_num_param (self : Descriptor) : Except PyError PyVal :=
  match self.kind with
  | .input => pure (.int 0)
  | .pooling => pure (.int 0)
  | .layer => throw .notImplementedError
  | .convolution => do
    let k0 ← pySubscript self.kernal_size 0
    let k1 ← pySubscript self.kernal_size 1
    let m1 ← pyMulInt k0 k1
    let m2 ← pyMulInt m1 self.nInputPlane
    pyMulInt m2 self.nOutputPlane

/-- `AbstractLayer.get_memory_usage_param` (layer.py lines 71-77).  The
if/elif chain has no else branch, so an unrecognized or unset paramtype makes
the method return None. -/
def get_memory_usage_param (self : Descriptor) : Except PyError PyVal :=
  if strEq self.paramtype "single" then do
    pyMulInt (← get_num_param self) (.int 4)
  else if strEq self.paramtype "double" then do
    pyMulInt (← get_num_param self) (.int 8)
  else if strEq self.paramtype "uint" then
    get_num_param self
  else
    pure .none

/-- Modelled from the spec: `get_memory_usage` (layer.py line 80) calls
`get_memory_usage_data`, which is defined nowhere in the sources given.  Spec
section 4.1 describes it as byte-width of `datatype` (uint 1, single 4,
double 8) times the element count of the attached `data` array, with an
unset `data` contributing zero. -/
def get_memory_usage_data (self : Descriptor) : Except PyError PyVal :=
  match self.data with
  | .array a =>
    if strEq self.datatype "uint" then pure (.int (a.size : Int))
    else if strEq self.datatype "single" then pure (.int (4 * (a.size : Int)))
    else if strEq self.datatype "double" then pure (.int (8 * (a.size : Int)))
    else throw (.invalidState "datatype of the layer is not set")
  | _ => pure (.int 0)

/-- `AbstractLayer.get_memory_usage` (layer.py lines 79-80): both operands are
evaluated, then added. -/
def get_memory_usage (self : Descriptor) : Except PyError PyVal := do
  let p ← get_memory_usage_param self
  let q ← get_memory_usage_data self
  pyAddInt p q

/-- `Convolution.get_output_blob_shape` (layer.py lines 215-217): after the
arity check on line 216 the method hits the unconditional `assert False` on
line 217 and raises. -/
def Convolution_get_output_blob_shape (_self : Descriptor) (bottom_shape : PyVal) :
    Except PyError PyVal := do
  let n ← pyLen bottom_shape
  let ok ← if n == 1 then do
      let first ← pySubscript bottom_shape 0
      pure ((← pyLen first) == 3)
    else pure false
  pyAssert ok "bottom blob is not correct"
  throw (.assertionError "")

/-- The `Convolution.data` setter (layer.py lines 194-199).  Line 198
evaluates `data.shape(3)`: a numpy shape is a tuple, so calling it raises
TypeError before the comparison with nOutputPlane ever happens. -/
def Convolution_data_set (_self : Descriptor) (data : PyVal) :
    Except PyError Descriptor := do
  pyAssert (isArray data) "the data of convolution layer should contains numpy array"
  let nd ← match data with
    | .array a => pure a.shape.length
    | _ => throw (.attributeError "object has no attribute ndim")
  pyAssert (nd == 4) "the data of convolution layer should be 4-d array"
  throw (.typeError "tuple object is not callable")

/-- Modelled from the spec: the convolution output-shape formula that spec
section 4.4 says is missing from the source and must be supplied.  Channels
are nOutputPlane; each spatial dimension is
floor((x + 2 * padding - kernel) / stride) + 1. -/
def conv_output_shape_spec (nOutputPlane : Int) (kernal_size stride padding : Int × Int)
    (bottom : Int × Int × Int) : Int × Int × Int :=
  (nOutputPlane,
   Int.fdiv (bottom.2.1 + 2 * padding.1 - kernal_size.1) stride.1 + 1,
   Int.fdiv (bottom.2.2 + 2 * padding.2 - kernal_size.2) stride.2 + 1)

/-- Boolean success test for the embedded fallible operations. -/
def exOk {α : Type} : Except PyError α → Bool
  | .ok _ => true
  | .error _ => false

/-! ## General lemmas about the embedding -/

theorem pyBind_ok {α β : Type} {x : Except PyError α} {f : α → Except PyError β}
    {b : β} (h : (x >>= f) = .ok b) : ∃ a, x = .ok a ∧ f a = .ok b := by
  cases x with
  | ok a => exact ⟨a, rfl, h⟩
  | error e => exact Except.noConfusion h

theorem pyAssert_ok {b : Bool} {msg : String} {u : Unit}
    (h : pyAssert b msg = .ok u) : b = true := by
  cases b with
  | true => rfl
  | false => exact Except.noConfusion h

theorem exOk_ok {α : Type} {x : Except PyError α} (h : exOk x = true) :
    ∃ a, x = .ok a := by
  cases x with
  | ok a => exact ⟨a, rfl⟩
  | error e => exact Bool.noConfusion h

theorem Layer_init_inv {nm nI nO ks s p dt pr pt : PyVal} {d : Descriptor}
    (h : Layer_init nm nI nO ks s p dt pr pt = .ok d) :
    d = mkLayerState nm nI nO ks s p dt pr pt ∧
      Layer_checks nm nI nO ks s p dt pr pt = .ok () := by
  unfold Layer_init at h
  obtain ⟨u, hc, hp⟩ := pyBind_ok h
  cases u
  exact ⟨(Except.ok.inj hp).symm, hc⟩

theorem Layer_init_of_checks {nm nI nO ks s p dt pr pt : PyVal}
    (hc : Layer_checks nm nI nO ks s p dt pr pt = .ok ()) :
    Layer_init nm nI nO ks s p dt pr pt =
      .ok (mkLayerState nm nI nO ks s p dt pr pt) := by
  unfold Layer_init
  rw [hc]
  rfl

theorem Convolution_init_inv {nm nI nO ks s p dt pr pt : PyVal} {d : Descriptor}
    (h : Convolution_init nm nI nO ks s p dt pr pt = .ok d) :
    ∃ d0, Layer_init nm nI nO ks s p dt pr pt = .ok d0 ∧
      d = { d0 with kind := .convolution } := by
  unfold Convolution_init at h
  obtain ⟨d0, h0, hp⟩ := pyBind_ok h
  exact ⟨d0, h0, (Except.ok.inj hp).symm⟩

theorem Pooling_init_inv {nm nI nO ks s p dt pt : PyVal} {d : Descriptor}
    (h : Pooling_init nm nI nO ks s p dt pt = .ok d) :
    ∃ d0, Layer_init nm nI nO ks s p dt pt .none = .ok d0 ∧
      d = { d0 with kind := .pooling } := by
  unfold Pooling_init at h
  obtain ⟨d0, h0, hp⟩ := pyBind_ok h
  exact ⟨d0, h0, (Except.ok.inj hp).symm⟩

theorem Layer_checks_inv {nm nI nO ks s p dt pr pt : PyVal}
    (h : Layer_checks nm nI nO ks s p dt pr pt = .ok ()) :
    isstring nm = true ∧ isIntPos nI = true ∧ isIntPos nO = true ∧
      isNoneOrArray pr = true := by
  unfold Layer_checks at h
  obtain ⟨u1, h1, h⟩ := pyBind_ok h
  obtain ⟨u2, h2, h⟩ := pyBind_ok h
  obtain ⟨u3, h3, h⟩ := pyBind_ok h
  obtain ⟨b4, hb4, h⟩ := pyBind_ok h
  obtain ⟨u4, h4, h⟩ := pyBind_ok h
  obtain ⟨b5, hb5, h⟩ := pyBind_ok h
  obtain ⟨u5, h5, h⟩ := pyBind_ok h
  obtain ⟨b6, hb6, h⟩ := pyBind_ok h
  obtain ⟨u6, h6, h⟩ := pyBind_ok h
  obtain ⟨u7, h7, h⟩ := pyBind_ok h
  exact ⟨pyAssert_ok h1, pyAssert_ok h2, pyAssert_ok h3, pyAssert_ok h7⟩

theorem isNoneOrArray_cases {v : PyVal} (h : isNoneOrArray v = true) :
    v = .none ∨ ∃ a, v = .array a := by
  cases v with
  | none => exact Or.inl rfl
  | array a => exact Or.inr ⟨a, rfl⟩
  | int n => exact Bool.noConfusion h
  | str s => exact Bool.noConfusion h
  | tuple xs => exact Bool.noConfusion h

/-! ## Claims settled by evaluating the embedded code at concrete inputs -/

/-- Claim C3: the claim says every zero or negative kernel dimension, negative
padding value, and non-positive stride value is rejected with InvalidArgument.
The code accepts all three at once: the scalar value checks are skipped
entirely (layer.py line 127 guards them with `type(...) is not int`), and for
pairs the asserts on lines 130 and 132 compare the whole tuple with 0, which
in Python 2 is always true.  This construction with kernal_size=0,
stride=(0,0) and padding=(-1,-1) succeeds. -/
theorem C3_invalid_shapes_accepted :
    exOk (Layer_init (.str "layer1") (.int 1) (.int 1) (.int 0)
      (.tuple [.int 0, .int 0]) (.tuple [.int (-1), .int (-1)])
      .none .none .none) = true := rfl

/-- Claim C5: the claim says `get_output_blob_shape` returns the convolution
output-shape formula.  The source validates the arity of `bottom_shape` and
then hits the unconditional `assert False` on layer.py line 217, so the call
raises on the very input the claim says yields (32, 32, 32); the spec-modelled
formula does produce (32, 32, 32) there. -/
theorem C5_output_shape_stub :
    (∃ d, Convolution_init (.str "conv") (.int 16) (.int 32)
        (.tuple [.int 3, .int 3]) (.tuple [.int 1, .int 1])
        (.tuple [.int 1, .int 1]) .none .none .none = .ok d ∧
      Convolution_get_output_blob_shape d
          (.tuple [.tuple [.int 16, .int 32, .int 32]]) =
        .error (.assertionError "")) ∧
    conv_output_shape_spec 32 (3, 3) (1, 1) (1, 1) (16, 32, 32) = (32, 32, 32) := by
  refine ⟨⟨⟨.convolution, .str "conv", .none, .none, .str "single",
    .str "single", .int 16, .int 32, .tuple [.int 3, .int 3],
    .tuple [.int 1, .int 1], .tuple [.int 1, .int 1]⟩, rfl, rfl⟩, rfl⟩

/-- Claim C7: the claim says assigning a numeric 4-D array whose last axis
equals nOutputPlane succeeds.  Line 198 evaluates `data.shape(3)`, calling the
shape tuple, so every 4-D array raises TypeError instead; a non-array still
fails the first assert. -/
theorem C7_data_setter_always_faults :
    ∃ d, Convolution_init (.str "conv") (.int 16) (.int 32)
        (.tuple [.int 3, .int 3]) .none .none .none .none .none = .ok d ∧
      Convolution_data_set d (.array ⟨[1, 1, 1, 32]⟩) =
        .error (.typeError "tuple object is not callable") ∧
      Convolution_data_set d (.int 5) =
        .error (.assertionError "the data of convolution layer should contains numpy array") := by
  exact ⟨⟨.convolution, .str "conv", .none, .none, .str "single",
    .str "single", .int 16, .int 32, .tuple [.int 3, .int 3], .none,
    .none⟩, rfl, rfl, rfl⟩

/-- Claim C8: the claim says stride and padding read back as (1,1) and (0,0)
when omitted.  The defaulting on layer.py lines 189-192 runs after the super
call and only rebinds local variables, and the base class stores the raw None,
so both fields read back None. -/
theorem C8_defaults_not_stored :
    ∃ d, Convolution_init (.str "conv") (.int 16) (.int 32) (.int 3)
        .none .none .none .none .none = .ok d ∧
      d.stride = .none ∧ d.padding = .none := by
  exact ⟨⟨.convolution, .str "conv", .none, .none, .str "single",
    .str "single", .int 16, .int 32, .tuple [.int 3, .int 3], .none,
    .none⟩, rfl, rfl, rfl⟩

/-- Claim C9: the claim says assigning a string to `name` commits it.  The
setter on layer.py lines 20-22 validates the value and returns without
storing, so the name reads back unchanged; a non-string is still rejected. -/
theorem C9_name_setter_drops_value :
    ∃ d d2, Input_init (.str "a") = .ok d ∧ name_set d (.str "b") = .ok d2 ∧
      d2.name = .str "a" ∧
      name_set d (.int 3) =
        .error (.assertionError "the name of a layer should be a string") := by
  exact ⟨⟨.input, .str "a", .none, .none, .none, .none, .none, .none,
    .none, .none, .none⟩,
    ⟨.input, .str "a", .none, .none, .none, .none, .none, .none,
    .none, .none, .none⟩, rfl, rfl, rfl, rfl⟩

/-- Claim C2, counterexample: a descriptor with `paramtype` unset (a freshly
constructed Input layer) makes `get_memory_usage_param` return None: the
if/elif chain on layer.py lines 71-77 has no else branch, so the call returns
normally instead of failing with InvalidState. -/
theorem C2_counterexample_unset_paramtype_returns_none :
    ∃ d, Input_init (.str "data") = .ok d ∧
      get_memory_usage_param d = .ok .none := by
  exact ⟨⟨.input, .str "data", .none, .none, .none, .none, .none, .none,
    .none, .none, .none⟩, rfl, rfl⟩

/-- Claim C10, counterexample: passing a numpy array as the `paramtype`
argument of Pooling is non-None, yet construction succeeds, because the value
is forwarded into the `params` slot whose check accepts arrays; the resulting
descriptor then has `params` equal to that array, not None. -/
theorem C10_counterexample_array_paramtype_accepted :
    ∃ d, Pooling_init (.str "pool") (.int 1) (.int 1) (.int 2) .none .none
        .none (.array ⟨[3]⟩) = .ok d ∧
      d.params = .array ⟨[3]⟩ ∧ d.paramtype = .str "single" := by
  exact ⟨⟨.pooling, .str "pool", .none, .array ⟨[3]⟩, .str "single",
    .str "single", .int 1, .int 1, .tuple [.int 2, .int 2], .none,
    .none⟩, rfl, rfl, rfl⟩

@[simp] theorem ok_bind {α β : Type} (a : α) (f : α → Except PyError β) :
    (Except.ok a >>= f) = f a := rfl

@[simp] theorem error_bind {α β : Type} (e : PyError) (f : α → Except PyError β) :
    ((Except.error e : Except PyError α) >>= f) = Except.error e := rfl

@[simp] theorem pure_eq_ok {α : Type} (a : α) :
    (pure a : Except PyError α) = .ok a := rfl

@[simp] theorem throw_eq_error {α : Type} (e : PyError) :
    (throw e : Except PyError α) = .error e := rfl

/-- Claim C1: for a Convolution built by the constructor, `get_num_param`
multiplies the two stored kernel dimensions with the two channel counts
(layer.py lines 212-213); no bias term is added. -/
theorem C1_conv_num_param (nm : PyVal) (nIn nOut : Int) (ks s p dt pr pt : PyVal)
    (d : Descriptor) (a b : Int)
    (h : Convolution_init nm (.int nIn) (.int nOut) ks s p dt pr pt = .ok d)
    (hks : d.kernal_size = .tuple [.int a, .int b]) :
    get_num_param d = .ok (.int (a * b * nIn * nOut)) := by
  obtain ⟨d0, h0, rfl⟩ := Convolution_init_inv h
  obtain ⟨rfl, hc⟩ := Layer_init_inv h0
  simp only [mkLayerState] at hks
  simp [get_num_param, mkLayerState, hks, pySubscript, pyMulInt]

/-- Claim C1 witness: kernelSize (3,3), nInputPlane 16, nOutputPlane 32 gives
3*3*16*32 = 4608. -/
theorem C1_conv_num_param_witness :
    ∃ d, Convolution_init (.str "conv") (.int 16) (.int 32)
        (.tuple [.int 3, .int 3]) .none .none .none .none .none = .ok d ∧
      get_num_param d = .ok (.int 4608) := by
  refine ⟨⟨.convolution, .str "conv", .none, .none, .str "single",
    .str "single", .int 16, .int 32, .tuple [.int 3, .int 3], .none,
    .none⟩, rfl, ?_⟩
  exact C1_conv_num_param (.str "conv") 16 32 (.tuple [.int 3, .int 3])
    .none .none .none .none .none _ 3 3 rfl rfl

/-- Claim C2 as amended: `get_memory_usage_param` multiplies the parameter
count by 1, 4 or 8 for uint, single, double, and when `paramtype` is unset it
RETURNS None (the if/elif chain on layer.py lines 71-77 has no else branch)
instead of failing with InvalidState as the claim stated. -/
theorem C2_memory_usage_param (d : Descriptor) (n : Int)
    (h : get_num_param d = .ok (.int n)) :
    (d.paramtype = .str "uint" → get_memory_usage_param d = .ok (.int n)) ∧
    (d.paramtype = .str "single" → get_memory_usage_param d = .ok (.int (n * 4))) ∧
    (d.paramtype = .str "double" → get_memory_usage_param d = .ok (.int (n * 8))) ∧
    (d.paramtype = .none → get_memory_usage_param d = .ok .none) := by
  refine ⟨fun hp => ?_, fun hp => ?_, fun hp => ?_, fun hp => ?_⟩ <;>
    simp [get_memory_usage_param, strEq, hp, h, pyMulInt]

/-- Claim C2 witness: a single-precision Convolution with 4608 parameters
uses 18432 bytes of parameter memory. -/
theorem C2_memory_usage_param_witness :
    get_memory_usage_param ⟨.convolution, .str "conv", .none, .none,
      .str "single", .str "single", .int 16, .int 32,
      .tuple [.int 3, .int 3], .none, .none⟩ = .ok (.int 18432) := by
  exact (C2_memory_usage_param ⟨.convolution, .str "conv", .none, .none,
    .str "single", .str "single", .int 16, .int 32,
    .tuple [.int 3, .int 3], .none, .none⟩ 4608 rfl).2.1 rfl

/-- Claim C4: for valid positive channel counts and kernel/stride/padding
each given as a valid scalar or pair, construction succeeds and the stored
fields are the normalization of the inputs: a scalar k becomes (k, k) and a
pair passes through unchanged (layer.py lines 146-155). -/
theorem C4_shape_normalization (nm : String) (nIn nOut : Int)
    (hIn : 0 < nIn) (hOut : 0 < nOut) (ks s p : PyVal)
    (hks : (∃ k : Int, ks = .int k ∧ 0 < k) ∨
      (∃ a b : Int, ks = .tuple [.int a, .int b] ∧ 0 < a ∧ 0 < b))
    (hs : (∃ k : Int, s = .int k ∧ 0 < k) ∨
      (∃ a b : Int, s = .tuple [.int a, .int b] ∧ 0 < a ∧ 0 < b))
    (hp : (∃ k : Int, p = .int k ∧ 0 ≤ k) ∨
      (∃ a b : Int, p = .tuple [.int a, .int b] ∧ 0 ≤ a ∧ 0 ≤ b)) :
    ∃ d, Layer_init (.str nm) (.int nIn) (.int nOut) ks s p
        .none .none .none = .ok d ∧
      (∀ k : Int, ks = .int k → d.kernal_size = .tuple [.int k, .int k]) ∧
      (∀ a b : Int, ks = .tuple [.int a, .int b] →
        d.kernal_size = .tuple [.int a, .int b]) ∧
      (∀ k : Int, s = .int k → d.stride = .tuple [.int k, .int k]) ∧
      (∀ a b : Int, s = .tuple [.int a, .int b] →
        d.stride = .tuple [.int a, .int b]) ∧
      (∀ k : Int, p = .int k → d.padding = .tuple [.int k, .int k]) ∧
      (∀ a b : Int, p = .tuple [.int a, .int b] →
        d.padding = .tuple [.int a, .int b]) := by
  have hchecks : Layer_checks (.str nm) (.int nIn) (.int nOut) ks s p
      .none .none .none = .ok () := by
    rcases hks with ⟨k1, rfl, hk1⟩ | ⟨a1, b1, rfl, ha1, hb1⟩ <;>
    rcases hs with ⟨k2, rfl, hk2⟩ | ⟨a2, b2, rfl, ha2, hb2⟩ <;>
    rcases hp with ⟨k3, rfl, hk3⟩ | ⟨a3, b3, rfl, ha3, hb3⟩ <;>
    simp [Layer_checks, pyAssert, isstring, isIntPos, shapeArgOk,
      isNoneOrArray, checkKernelItems, checkStrideItems, checkPaddingItems,
      pyIter, pyAll, py2GtZero, py2GeZero, isInt, isNone, isTypeTag, strEq,
      pyLen, hIn, hOut, *]
  refine ⟨mkLayerState (.str nm) (.int nIn) (.int nOut) ks s p
    .none .none .none, Layer_init_of_checks hchecks, ?_, ?_, ?_, ?_, ?_, ?_⟩
  · rintro k rfl; rfl
  · rintro a b rfl; rfl
  · rintro k rfl; rfl
  · rintro a b rfl; rfl
  · rintro k rfl; rfl
  · rintro a b rfl; rfl

/-- Claim C4 witness: kernelSize (3,5), stride 2, padding 0 read back as
(3,5), (2,2), (0,0). -/
theorem C4_shape_normalization_witness :
    ∃ d, Layer_init (.str "layer1") (.int 16) (.int 32)
        (.tuple [.int 3, .int 5]) (.int 2) (.int 0) .none .none .none = .ok d ∧
      d.kernal_size = .tuple [.int 3, .int 5] ∧
      d.stride = .tuple [.int 2, .int 2] ∧
      d.padding = .tuple [.int 0, .int 0] := by
  obtain ⟨d, hinit, hk1, hk2, hs1, hs2, hp1, hp2⟩ :=
    C4_shape_normalization "layer1" 16 32 (by decide) (by decide)
      (.tuple [.int 3, .int 5]) (.int 2) (.int 0)
      (Or.inr ⟨3, 5, rfl, by decide, by decide⟩)
      (Or.inl ⟨2, rfl, by decide⟩)
      (Or.inl ⟨0, rfl, by decide⟩)
  exact ⟨d, hinit, hk2 3 5 rfl, hs1 2 rfl, hp1 0 rfl⟩

/-- Claim C6: with `paramtype` set, `get_memory_usage` (layer.py lines 79-80)
returns the sum of the parameter memory and the data memory, where the data
term is byte-width of datatype times the element count of the attached data
array and zero with no data attached; `get_memory_usage_data` itself is
modelled from the spec because the source never defines it. -/
theorem C6_memory_usage_sum (d : Descriptor) (n : Int)
    (hn : get_num_param d = .ok (.int n))
    (hpt : d.paramtype = .str "uint" ∨ d.paramtype = .str "single" ∨
      d.paramtype = .str "double")
    (hdt : (∀ a, d.data ≠ .array a) ∨ d.datatype = .str "uint" ∨
      d.datatype = .str "single" ∨ d.datatype = .str "double") :
    ∃ pv dv : Int, get_memory_usage_param d = .ok (.int pv) ∧
      get_memory_usage_data d = .ok (.int dv) ∧
      get_memory_usage d = .ok (.int (pv + dv)) ∧
      ((∀ a, d.data ≠ .array a) → dv = 0) := by
  obtain ⟨pv, hpv⟩ : ∃ pv : Int, get_memory_usage_param d = .ok (.int pv) := by
    rcases hpt with h1 | h1 | h1
    · exact ⟨n, by simp [get_memory_usage_param, strEq, h1, hn]⟩
    · exact ⟨n * 4, by simp [get_memory_usage_param, strEq, h1, hn, pyMulInt]⟩
    · exact ⟨n * 8, by simp [get_memory_usage_param, strEq, h1, hn, pyMulInt]⟩
  obtain ⟨dv, hdv, hzero⟩ : ∃ dv : Int,
      get_memory_usage_data d = .ok (.int dv) ∧
      ((∀ a, d.data ≠ .array a) → dv = 0) := by
    cases hd : d.data with
    | array a =>
      rcases hdt with h2 | h2 | h2 | h2
      · exact absurd hd (h2 a)
      · exact ⟨(a.size : Int), by simp [get_memory_usage_data, hd, strEq, h2],
          fun habs => absurd rfl (habs a)⟩
      · exact ⟨4 * (a.size : Int),
          by simp [get_memory_usage_data, hd, strEq, h2],
          fun habs => absurd rfl (habs a)⟩
      · exact ⟨8 * (a.size : Int),
          by simp [get_memory_usage_data, hd, strEq, h2],
          fun habs => absurd rfl (habs a)⟩
    | none => exact ⟨0, by simp [get_memory_usage_data, hd], fun _ => rfl⟩
    | int m => exact ⟨0, by simp [get_memory_usage_data, hd], fun _ => rfl⟩
    | str t => exact ⟨0, by simp [get_memory_usage_data, hd], fun _ => rfl⟩
    | tuple xs => exact ⟨0, by simp [get_memory_usage_data, hd], fun _ => rfl⟩
  exact ⟨pv, dv, hpv, hdv,
    by simp [get_memory_usage, hpv, hdv, pyAddInt], hzero⟩

/-- Claim C6 witness: a single-precision Convolution with no data attached
has memory usage 18432 + 0. -/
theorem C6_memory_usage_sum_witness :
    ∃ pv dv : Int,
      get_memory_usage_param ⟨.convolution, .str "conv", .none, .none,
        .str "single", .str "single", .int 16, .int 32,
        .tuple [.int 3, .int 3], .none, .none⟩ = .ok (.int pv) ∧
      get_memory_usage_data ⟨.convolution, .str "conv", .none, .none,
        .str "single", .str "single", .int 16, .int 32,
        .tuple [.int 3, .int 3], .none, .none⟩ = .ok (.int dv) ∧
      get_memory_usage ⟨.convolution, .str "conv", .none, .none,
        .str "single", .str "single", .int 16, .int 32,
        .tuple [.int 3, .int 3], .none, .none⟩ = .ok (.int (pv + dv)) ∧
      ((∀ a, (PyVal.none : PyVal) ≠ .array a) → dv = 0) := by
  exact C6_memory_usage_sum ⟨.convolution, .str "conv", .none, .none,
    .str "single", .str "single", .int 16, .int 32,
    .tuple [.int 3, .int 3], .none, .none⟩ 4608 rfl
    (Or.inr (Or.inl rfl))
    (Or.inl fun a h => PyVal.noConfusion h)

/-- Claim C10 as amended: a Pooling construction fails for every `paramtype`
that is neither None nor a numpy array (the value lands in the base
constructor slot that accepts exactly None or an array, layer.py lines 125 and
225); a successfully constructed Pooling always has paramtype single, and its
`params` is the forwarded paramtype argument, hence None or an array. -/
theorem C10_pooling_paramtype_forwarded (nm nI nO ks s p dt pt : PyVal) :
    ((pt ≠ .none ∧ ∀ a, pt ≠ .array a) →
      exOk (Pooling_init nm nI nO ks s p dt pt) = false) ∧
    (∀ d, Pooling_init nm nI nO ks s p dt pt = .ok d →
      d.paramtype = .str "single" ∧ d.params = pt ∧
        (pt = .none ∨ ∃ a, pt = .array a)) := by
  constructor
  · rintro ⟨hne, hna⟩
    cases hE : exOk (Pooling_init nm nI nO ks s p dt pt) with
    | false => rfl
    | true =>
      obtain ⟨d, hd⟩ := exOk_ok hE
      obtain ⟨d0, h0, _⟩ := Pooling_init_inv hd
      obtain ⟨_, hc⟩ := Layer_init_inv h0
      rcases isNoneOrArray_cases (Layer_checks_inv hc).2.2.2 with h | ⟨a, h⟩
      · exact absurd h hne
      · exact absurd h (hna a)
  · intro d hd
    obtain ⟨d0, h0, rfl⟩ := Pooling_init_inv hd
    obtain ⟨rfl, hc⟩ := Layer_init_inv h0
    refine ⟨rfl, rfl, ?_⟩
    exact isNoneOrArray_cases (Layer_checks_inv hc).2.2.2

/-- Claim C10 witness: passing the string single as the paramtype of Pooling
makes construction fail. -/
theorem C10_pooling_paramtype_forwarded_witness :
    exOk (Pooling_init (.str "pool") (.int 1) (.int 1) (.int 2) .none .none
      .none (.str "single")) = false := by
  exact (C10_pooling_paramtype_forwarded (.str "pool") (.int 1) (.int 1)
    (.int 2) .none .none .none (.str "single")).1
    ⟨fun h => PyVal.noConfusion h, fun a h => PyVal.noConfusion h⟩
